import Mathlib

/-!
Verification of the Blasteroids game simulation core against its
natural-language specification.

The TypeScript sources are shallowly embedded: JavaScript `number` values
become real numbers, fallible operations (`Vector2D.divide`, which throws on a
zero scalar) become `Option`-valued functions, and in-place mutation of entity
objects becomes explicit state passing.  Each definition mirrors one function
of the sources (file and line references are given in the doc comments).
-/

/-- Immutable 2D vector, from src/core/Vector2D.ts. -/
structure Vector2D where
  x : ℝ
  y : ℝ

/-- Vector2D.add (Vector2D.ts lines 11-13). -/
def Vector2D.add (v other : Vector2D) : Vector2D :=
  ⟨v.x + other.x, v.y + other.y⟩

/-- Vector2D.subtract (Vector2D.ts lines 18-20). -/
def Vector2D.subtract (v other : Vector2D) : Vector2D :=
  ⟨v.x - other.x, v.y - other.y⟩

/-- Vector2D.multiply (Vector2D.ts lines 25-27). -/
def Vector2D.multiply (v : Vector2D) (scalar : ℝ) : Vector2D :=
  ⟨v.x * scalar, v.y * scalar⟩

/-- Vector2D.divide (Vector2D.ts lines 32-37): throws on a zero scalar, which
the embedding renders as `none`. -/
noncomputable def Vector2D.divide (v : Vector2D) (scalar : ℝ) : Option Vector2D :=
  if scalar = 0 then none
  else some ⟨v.x / scalar, v.y / scalar⟩

/-- Vector2D.magnitude (Vector2D.ts lines 42-44): Math.sqrt(x*x + y*y). -/
noncomputable def Vector2D.magnitude (v : Vector2D) : ℝ :=
  Real.sqrt (v.x * v.x + v.y * v.y)

/-- Vector2D.magnitudeSquared (Vector2D.ts lines 49-51). -/
def Vector2D.magnitudeSquared (v : Vector2D) : ℝ :=
  v.x * v.x + v.y * v.y

/-- Vector2D.normalize (Vector2D.ts lines 56-62), with the division by the
magnitude inlined: the `divide` call there is reached only when the magnitude
is nonzero, so it cannot throw. -/
noncomputable def Vector2D.normalize (v : Vector2D) : Vector2D :=
  if v.magnitude = 0 then ⟨0, 0⟩
  else ⟨v.x / v.magnitude, v.y / v.magnitude⟩

/-- Vector2D.normalize exactly as written in the source (Vector2D.ts lines
56-62), with the error-propagation of the inner `divide` call kept visible:
the result is `none` exactly when that call would throw. -/
noncomputable def Vector2D.normalizeChecked (v : Vector2D) : Option Vector2D :=
  if v.magnitude = 0 then some ⟨0, 0⟩
  else v.divide v.magnitude

/-- Vector2D.distanceTo (Vector2D.ts lines 74-76). -/
noncomputable def Vector2D.distanceTo (v other : Vector2D) : ℝ :=
  (v.subtract other).magnitude

/-- Vector2D.angle (Vector2D.ts lines 100-102): Math.atan2(y, x), embedded as
the argument of the complex number x + y*I. -/
noncomputable def Vector2D.angle (v : Vector2D) : ℝ :=
  Complex.arg ⟨v.x, v.y⟩

/-- Vector2D.fromAngle (Vector2D.ts lines 118-120). -/
noncomputable def Vector2D.fromAngle (angle : ℝ) (mag : ℝ := 1) : Vector2D :=
  ⟨Real.cos angle * mag, Real.sin angle * mag⟩

/-- Vector2D.ZERO (Vector2D.ts lines 125-127). -/
def Vector2D.zero : Vector2D := ⟨0, 0⟩

theorem Vector2D.magnitude_nonneg (v : Vector2D) : 0 ≤ v.magnitude :=
  Real.sqrt_nonneg _

theorem Vector2D.magnitude_eq_zero {v : Vector2D} :
    v.magnitude = 0 ↔ v = ⟨0, 0⟩ := by
  unfold Vector2D.magnitude
  rw [Real.sqrt_eq_zero' ]
  constructor
  · intro h
    have hx : v.x * v.x + v.y * v.y = 0 := by nlinarith [mul_self_nonneg v.x, mul_self_nonneg v.y]
    have hx0 : v.x = 0 := by nlinarith [mul_self_nonneg v.x, mul_self_nonneg v.y]
    have hy0 : v.y = 0 := by nlinarith [mul_self_nonneg v.x, mul_self_nonneg v.y]
    cases v
    simp_all
  · rintro rfl
    norm_num

theorem Vector2D.magnitude_multiply (v : Vector2D) (c : ℝ) :
    (v.multiply c).magnitude = |c| * v.magnitude := by
  unfold Vector2D.magnitude Vector2D.multiply
  have h : v.x * c * (v.x * c) + v.y * c * (v.y * c) = c ^ 2 * (v.x * v.x + v.y * v.y) := by ring
  rw [h, Real.sqrt_mul (sq_nonneg c), Real.sqrt_sq_eq_abs]

theorem Vector2D.magnitude_normalize {v : Vector2D} (h : v.magnitude ≠ 0) :
    v.normalize.magnitude = 1 := by
  have hnn : 0 ≤ v.x * v.x + v.y * v.y :=
    add_nonneg (mul_self_nonneg _) (mul_self_nonneg _)
  have hm2 : v.magnitude * v.magnitude = v.x * v.x + v.y * v.y :=
    Real.mul_self_sqrt hnn
  unfold Vector2D.normalize
  rw [if_neg h]
  show Real.sqrt (v.x / v.magnitude * (v.x / v.magnitude) +
      v.y / v.magnitude * (v.y / v.magnitude)) = 1
  have harg : v.x / v.magnitude * (v.x / v.magnitude) +
      v.y / v.magnitude * (v.y / v.magnitude) = 1 := by
    field_simp
    linarith [hm2]
  rw [harg, Real.sqrt_one]

/-- Asteroid size enumeration (Asteroid.ts lines 7-11). -/
inductive AsteroidSize
  | SMALL
  | MEDIUM
  | LARGE
deriving DecidableEq

/-- Asteroid.getRadiusForSize (Asteroid.ts lines 103-112). -/
def getRadiusForSize : AsteroidSize → ℝ
  | AsteroidSize.SMALL => 15
  | AsteroidSize.MEDIUM => 30
  | AsteroidSize.LARGE => 50

/-- Asteroid.getPointsForSize (Asteroid.ts lines 117-126). -/
def getPointsForSize : AsteroidSize → ℝ
  | AsteroidSize.SMALL => 100
  | AsteroidSize.MEDIUM => 50
  | AsteroidSize.LARGE => 20

/-- Speed range record returned by Asteroid.getSpeedRangeForSize. -/
structure SpeedRange where
  min : ℝ
  max : ℝ

/-- Asteroid.getSpeedRangeForSize (Asteroid.ts lines 131-140). -/
def getSpeedRangeForSize : AsteroidSize → SpeedRange
  | AsteroidSize.SMALL => ⟨80, 120⟩
  | AsteroidSize.MEDIUM => ⟨50, 80⟩
  | AsteroidSize.LARGE => ⟨20, 50⟩

/-- Ship configuration (Ship.ts lines 7-12). -/
structure ShipConfig where
  maxSpeed : Option ℝ := none
  acceleration : Option ℝ := none
  rotationSpeed : Option ℝ := none
  drag : Option ℝ := none

/-- The Ship entity (Ship.ts lines 18-39): the Entity base fields followed by
the ship-specific fields. -/
structure Ship where
  id : String
  position : Vector2D
  velocity : Vector2D
  rotation : ℝ
  radius : ℝ
  active : Bool
  maxSpeed : ℝ
  accelerationMagnitude : ℝ
  rotationSpeed : ℝ
  drag : ℝ
  isAccelerating : Bool
  targetPosition : Option Vector2D

/-- The Ship constructor (Ship.ts lines 26-39): radius 15, velocity zero,
rotation 0, configuration defaults 300 / 200 / 3 / 0.98. -/
def Ship.create (id : String) (position : Vector2D) (config : ShipConfig) : Ship :=
  { id := id
    position := position
    velocity := Vector2D.zero
    rotation := 0
    radius := 15
    active := true
    maxSpeed := config.maxSpeed.getD 300
    accelerationMagnitude := config.acceleration.getD 200
    rotationSpeed := config.rotationSpeed.getD 3
    drag := config.drag.getD 0.98
    isAccelerating := false
    targetPosition := none }

/-- Ship.getDirection (Ship.ts lines 122-124). -/
noncomputable def Ship.getDirection (s : Ship) : Vector2D :=
  Vector2D.fromAngle s.rotation

/-- Bullet configuration (Bullet.ts lines 7-11). -/
structure BulletConfig where
  speed : Option ℝ := none
  lifetime : Option ℝ := none
  radius : Option ℝ := none

/-- The Bullet entity (Bullet.ts lines 17-36). -/
structure Bullet where
  id : String
  position : Vector2D
  velocity : Vector2D
  rotation : ℝ
  radius : ℝ
  active : Bool
  speed : ℝ
  lifetime : ℝ
  age : ℝ

/-- The Bullet constructor (Bullet.ts lines 22-36): velocity is the normalized
direction scaled by the speed (default 500), radius default 3, lifetime
default 2 seconds, age 0. -/
noncomputable def Bullet.create (id : String) (position direction : Vector2D)
    (config : BulletConfig) : Bullet :=
  let speed := config.speed.getD 500
  { id := id
    position := position
    velocity := direction.normalize.multiply speed
    rotation := 0
    radius := config.radius.getD 3
    active := true
    speed := speed
    lifetime := config.lifetime.getD 2
    age := 0 }

/-- Asteroid configuration (Asteroid.ts lines 16-20). -/
structure AsteroidConfig where
  minSpeed : Option ℝ := none
  maxSpeed : Option ℝ := none
  rotationSpeed : Option ℝ := none

/-- The Asteroid entity (Asteroid.ts lines 26-44). -/
structure Asteroid where
  id : String
  position : Vector2D
  velocity : Vector2D
  rotation : ℝ
  radius : ℝ
  active : Bool
  size : AsteroidSize
  rotationSpeed : ℝ
  points : ℝ

/-- The Asteroid constructor (Asteroid.ts lines 31-44).  The default rotation
speed draws one sample from Math.random; the embedding takes that sample as
the explicit argument `rnd`. -/
def Asteroid.create (id : String) (position velocity : Vector2D)
    (size : AsteroidSize) (config : AsteroidConfig) (rnd : ℝ) : Asteroid :=
  { id := id
    position := position
    velocity := velocity
    rotation := 0
    radius := getRadiusForSize size
    active := true
    size := size
    rotationSpeed := config.rotationSpeed.getD ((rnd - 0.5) * 2)
    points := getPointsForSize size }

/-- Asteroid.getSmallerSize (Asteroid.ts lines 82-91). -/
def Asteroid.getSmallerSize (a : Asteroid) : Option AsteroidSize :=
  match a.size with
  | AsteroidSize.LARGE => some AsteroidSize.MEDIUM
  | AsteroidSize.MEDIUM => some AsteroidSize.SMALL
  | AsteroidSize.SMALL => none

/-- Asteroid.canSplit (Asteroid.ts lines 96-98). -/
def Asteroid.canSplit (a : Asteroid) : Bool :=
  a.size ≠ AsteroidSize.SMALL

/-- Asteroid.update (Asteroid.ts lines 67-77): inactive asteroids return
early; otherwise integrate position and advance rotation. -/
def Asteroid.update (dt : ℝ) (a : Asteroid) : Asteroid :=
  if a.active = false then a
  else
    { a with
      position := a.position.add (a.velocity.multiply dt)
      rotation := a.rotation + a.rotationSpeed * dt }

/-- Bullet.update (Bullet.ts lines 45-58): inactive bullets return early;
otherwise integrate position, accumulate age, and self-destroy once the age
reaches the lifetime. -/
noncomputable def Bullet.update (dt : ℝ) (b : Bullet) : Bullet :=
  if b.active = false then b
  else
    let b1 := { b with position := b.position.add (b.velocity.multiply dt), age := b.age + dt }
    if b1.age ≥ b1.lifetime then { b1 with active := false } else b1

/-- First normalization loop of Ship.update (Ship.ts line 78): subtract 2*pi
while the rotation difference is above pi. -/
noncomputable def reduceAngleAbove (d : ℝ) : ℝ :=
  if h : d > Real.pi then reduceAngleAbove (d - Real.pi * 2) else d
termination_by (⌈(d - Real.pi) / (2 * Real.pi)⌉).toNat
decreasing_by
  have hceil : ⌈(d - Real.pi * 2 - Real.pi) / (2 * Real.pi)⌉ =
      ⌈(d - Real.pi) / (2 * Real.pi)⌉ - 1 := by
    have harg : (d - Real.pi * 2 - Real.pi) / (2 * Real.pi) =
        (d - Real.pi) / (2 * Real.pi) - 1 := by
      field_simp
      ring
    rw [harg, Int.ceil_sub_one]
  have hpos : (0 : ℤ) < ⌈(d - Real.pi) / (2 * Real.pi)⌉ := by
    rw [Int.ceil_pos]
    exact div_pos (by linarith) (by positivity)
  omega

/-- Second normalization loop of Ship.update (Ship.ts line 79): add 2*pi while
the rotation difference is below -pi. -/
noncomputable def reduceAngleBelow (d : ℝ) : ℝ :=
  if h : d < -Real.pi then reduceAngleBelow (d + Real.pi * 2) else d
termination_by (⌈(-Real.pi - d) / (2 * Real.pi)⌉).toNat
decreasing_by
  have hceil : ⌈(-Real.pi - (d + Real.pi * 2)) / (2 * Real.pi)⌉ =
      ⌈(-Real.pi - d) / (2 * Real.pi)⌉ - 1 := by
    have harg : (-Real.pi - (d + Real.pi * 2)) / (2 * Real.pi) =
        (-Real.pi - d) / (2 * Real.pi) - 1 := by
      field_simp
      ring
    rw [harg, Int.ceil_sub_one]
  have hpos : (0 : ℤ) < ⌈(-Real.pi - d) / (2 * Real.pi)⌉ := by
    rw [Int.ceil_pos]
    exact div_pos (by linarith) (by positivity)
  omega

/-- Rotation-difference normalization of Ship.update (Ship.ts lines 78-79):
both while loops run in sequence. -/
noncomputable def normalizeRotationDiff (d : ℝ) : ℝ :=
  reduceAngleBelow (reduceAngleAbove d)

/-- Rotation block of Ship.update (Ship.ts lines 70-88): when a mouse
position is supplied, turn toward it by at most rotationSpeed * dt radians,
snapping onto the target bearing when it is within one step. -/
noncomputable def shipRotationStep (dt : ℝ) (mousePosition : Option Vector2D)
    (s : Ship) : Ship :=
  match mousePosition with
  | none => s
  | some mp =>
    let directionToMouse := mp.subtract s.position
    let targetRotation := directionToMouse.angle
    let rotationDiff := normalizeRotationDiff (targetRotation - s.rotation)
    let maxRotationThisFrame := s.rotationSpeed * dt
    if |rotationDiff| ≤ maxRotationThisFrame then
      { s with rotation := targetRotation }
    else
      { s with rotation := s.rotation + Real.sign rotationDiff * maxRotationThisFrame }

/-- Thrust block of Ship.update (Ship.ts lines 91-98): while accelerating
toward a set target, add the acceleration vector to the velocity. -/
noncomputable def shipThrustStep (dt : ℝ) (s : Ship) : Ship :=
  if s.isAccelerating = true then
    match s.targetPosition with
    | some tp =>
      let directionToTarget := (tp.subtract s.position).normalize
      let acceleration := directionToTarget.multiply (s.accelerationMagnitude * dt)
      { s with velocity := s.velocity.add acceleration }
    | none => s
  else s

/-- Drag block of Ship.update (Ship.ts lines 100-101): velocity times
drag^dt. -/
noncomputable def shipDragStep (dt : ℝ) (s : Ship) : Ship :=
  { s with velocity := s.velocity.multiply (s.drag ^ dt) }

/-- Speed-limit block of Ship.update (Ship.ts lines 103-106): when the speed
exceeds maxSpeed, rescale the velocity to exactly maxSpeed. -/
noncomputable def shipClampStep (s : Ship) : Ship :=
  if s.velocity.magnitude > s.maxSpeed then
    { s with velocity := s.velocity.normalize.multiply s.maxSpeed }
  else s

/-- Position-integration block of Ship.update (Ship.ts line 109). -/
noncomputable def shipIntegrateStep (dt : ℝ) (s : Ship) : Ship :=
  { s with position := s.position.add (s.velocity.multiply dt) }

/-- Ship.update (Ship.ts lines 64-110): inactive ships return early; otherwise
rotate toward the mouse position when one is given, accelerate toward the
target while thrusting, apply exponential drag, clamp the speed, and
integrate the position — the five blocks above in source order. -/
noncomputable def Ship.update (dt : ℝ) (mousePosition : Option Vector2D) (s : Ship) : Ship :=
  if s.active = false then s
  else
    shipIntegrateStep dt
      (shipClampStep (shipDragStep dt (shipThrustStep dt (shipRotationStep dt mousePosition s))))

/-- Entity type tags (Entity.ts lines 6-10). -/
inductive EntityType
  | SHIP
  | BULLET
  | ASTEROID
deriving DecidableEq

/-- The closed variant model of the abstract Entity base class (Entity.ts
lines 16-37 with its three subclasses). -/
inductive Entity
  | ship (s : Ship)
  | bullet (b : Bullet)
  | asteroid (a : Asteroid)

/-- Base-class id field. -/
def Entity.idOf : Entity → String
  | Entity.ship s => s.id
  | Entity.bullet b => b.id
  | Entity.asteroid a => a.id

/-- Base-class position field. -/
def Entity.position : Entity → Vector2D
  | Entity.ship s => s.position
  | Entity.bullet b => b.position
  | Entity.asteroid a => a.position

/-- Base-class radius field. -/
def Entity.radius : Entity → ℝ
  | Entity.ship s => s.radius
  | Entity.bullet b => b.radius
  | Entity.asteroid a => a.radius

/-- Base-class active flag. -/
def Entity.active : Entity → Bool
  | Entity.ship s => s.active
  | Entity.bullet b => b.active
  | Entity.asteroid a => a.active

/-- Entity.getType (abstract in Entity.ts line 48, resolved per subclass). -/
def Entity.getType : Entity → EntityType
  | Entity.ship _ => EntityType.SHIP
  | Entity.bullet _ => EntityType.BULLET
  | Entity.asteroid _ => EntityType.ASTEROID

/-- Entity.destroy (Entity.ts lines 64-66): set active to false. -/
def Entity.destroy : Entity → Entity
  | Entity.ship s => Entity.ship { s with active := false }
  | Entity.bullet b => Entity.bullet { b with active := false }
  | Entity.asteroid a => Entity.asteroid { a with active := false }

/-- Entity.collidesWith (Entity.ts lines 53-59): false unless both entities
are active; otherwise compare the distance between centers with the sum of
the radii. -/
def Entity.collidesWith (e other : Entity) : Prop :=
  e.active = true ∧ other.active = true ∧
    e.position.distanceTo other.position < e.radius + other.radius

/-- Entity.isOutOfBounds (Entity.ts lines 71-78), margin default 100. -/
def Entity.isOutOfBounds (e : Entity) (worldWidth worldHeight : ℝ)
    (margin : ℝ := 100) : Prop :=
  e.position.x < -margin ∨ e.position.x > worldWidth + margin ∨
    e.position.y < -margin ∨ e.position.y > worldHeight + margin

/-- Entity.wrapAroundBounds (Entity.ts lines 83-100) acting on the position:
strictly negative coordinates teleport to the far edge, coordinates strictly
beyond the far edge teleport to 0, everything else is unchanged. -/
noncomputable def wrapAroundBounds (p : Vector2D) (worldWidth worldHeight : ℝ) : Vector2D :=
  let newX := if p.x < 0 then worldWidth else if p.x > worldWidth then 0 else p.x
  let newY := if p.y < 0 then worldHeight else if p.y > worldHeight then 0 else p.y
  ⟨newX, newY⟩

/-- Game state enumeration (GameWorld.ts lines 7-12). -/
inductive GameState
  | READY
  | PLAYING
  | PAUSED
  | GAME_OVER
deriving DecidableEq

/-- World configuration (GameWorld.ts lines 17-21). -/
structure GameConfig where
  worldWidth : ℝ
  worldHeight : ℝ

/-- The game world (GameWorld.ts lines 27-44): the entity table (a Map keyed
by entity id, modelled as a list unique in ids), the id counter, the state
machine, score, level and tracked mouse position. -/
structure GameWorld where
  entities : List Entity
  entityIdCounter : ℕ
  config : GameConfig
  currentState : GameState
  currentScore : ℝ
  currentLevel : ℕ
  mousePosition : Option Vector2D

/-- The GameWorld constructor (GameWorld.ts lines 36-44). -/
def GameWorld.create (config : GameConfig) : GameWorld :=
  { entities := []
    entityIdCounter := 0
    config := config
    currentState := GameState.READY
    currentScore := 0
    currentLevel := 1
    mousePosition := none }

/-- GameWorld.addEntity (GameWorld.ts lines 81-83): Map.set keyed by the
entity id — replace an entry with the same id in place, else append. -/
def GameWorld.addEntity (w : GameWorld) (e : Entity) : GameWorld :=
  { w with
    entities :=
      if w.entities.any (fun e2 => e2.idOf = e.idOf) then
        w.entities.map (fun e2 => if e2.idOf = e.idOf then e else e2)
      else w.entities ++ [e] }

/-- GameWorld.generateEntityId (GameWorld.ts lines 129-131): returns the
fresh id and the world with the counter incremented. -/
def GameWorld.generateEntityId (w : GameWorld) (pfx : String) : String × GameWorld :=
  (pfx ++ "_" ++ toString w.entityIdCounter,
    { w with entityIdCounter := w.entityIdCounter + 1 })

/-- GameWorld.startGame (GameWorld.ts lines 201-205): force PLAYING, zero the
score, reset the level to 1. -/
def GameWorld.startGame (w : GameWorld) : GameWorld :=
  { w with
    currentState := GameState.PLAYING
    currentScore := 0
    currentLevel := 1 }

/-- GameWorld.gameOver (GameWorld.ts lines 228-230). -/
def GameWorld.gameOver (w : GameWorld) : GameWorld :=
  { w with currentState := GameState.GAME_OVER }

/-- GameWorld.addScore (GameWorld.ts lines 235-237). -/
def GameWorld.addScore (w : GameWorld) (points : ℝ) : GameWorld :=
  { w with currentScore := w.currentScore + points }

/-- GameWorld.nextLevel (GameWorld.ts lines 242-244). -/
def GameWorld.nextLevel (w : GameWorld) : GameWorld :=
  { w with currentLevel := w.currentLevel + 1 }

/-- GameWorld.reset (GameWorld.ts lines 249-255): clear the entity table,
zero the id counter and score, force READY, reset the level to 1. -/
def GameWorld.reset (w : GameWorld) : GameWorld :=
  { w with
    entities := []
    entityIdCounter := 0
    currentState := GameState.READY
    currentScore := 0
    currentLevel := 1 }

/-- GameWorld.getWorldCenter (GameWorld.ts lines 260-262). -/
noncomputable def GameWorld.getWorldCenter (w : GameWorld) : Vector2D :=
  ⟨w.config.worldWidth / 2, w.config.worldHeight / 2⟩

/-- Ship controller configuration (ShipController.ts lines 127-130). -/
structure ShipControllerConfig where
  fireRate : Option ℝ := none
  bulletConfig : Option BulletConfig := none

/-- The ship controller (ShipController.ts lines 136-153): fire rate, time
since the last shot, and the bullet configuration.  The ship and world the
source object holds by reference are passed to `fire` explicitly. -/
structure ShipController where
  fireRate : ℝ
  timeSinceLastShot : ℝ
  bulletConfig : BulletConfig

/-- The ShipController constructor (ShipController.ts lines 143-153): fire
rate default 5, timer initialized to one full interval so the ship starts
ready to fire. -/
noncomputable def ShipController.create (config : ShipControllerConfig) : ShipController :=
  let fr := config.fireRate.getD 5
  { fireRate := fr
    timeSinceLastShot := 1 / fr
    bulletConfig := config.bulletConfig.getD {} }

/-- ShipController.update (ShipController.ts lines 158-160): accumulate the
timer unconditionally. -/
def ShipController.update (dt : ℝ) (c : ShipController) : ShipController :=
  { c with timeSinceLastShot := c.timeSinceLastShot + dt }

/-- ShipController.fire (ShipController.ts lines 166-189): refuse when the
timer is below one interval; otherwise create a bullet at the ship position
along the ship direction, register it in the world, and zero the timer. -/
noncomputable def ShipController.fire (c : ShipController) (ship : Ship) (w : GameWorld) :
    Option Bullet × ShipController × GameWorld :=
  if c.timeSinceLastShot < 1 / c.fireRate then (none, c, w)
  else
    let idw := w.generateEntityId "bullet"
    let b := Bullet.create idw.1 ship.position ship.getDirection c.bulletConfig
    (some b, { c with timeSinceLastShot := 0 }, idw.2.addEntity (Entity.bullet b))

/-- ShipController.canFire (ShipController.ts lines 194-197). -/
noncomputable def ShipController.canFire (c : ShipController) : Prop :=
  c.timeSinceLastShot ≥ 1 / c.fireRate

/-- Explicit pseudo-random source threaded through the spawner in place of the
ambient Math.random: a stream of samples and the index of the next one. -/
structure Rng where
  stream : ℕ → ℝ
  idx : ℕ

/-- Draw the next sample. -/
def Rng.next (r : Rng) : ℝ × Rng :=
  (r.stream r.idx, { r with idx := r.idx + 1 })

/-- Asteroid spawner configuration (AsteroidSpawner.ts lines 109-112). -/
structure AsteroidSpawnerConfig where
  minDistanceFromShip : Option ℝ := none
  splitCount : Option ℕ := none

/-- The asteroid spawner (AsteroidSpawner.ts lines 117-127) after its
constructor resolved the defaults: minimum ship distance 150, split count 2. -/
structure AsteroidSpawner where
  minDistanceFromShip : ℝ
  splitCount : ℕ

/-- The AsteroidSpawner constructor (AsteroidSpawner.ts lines 121-127). -/
def AsteroidSpawner.create (config : AsteroidSpawnerConfig) : AsteroidSpawner :=
  { minDistanceFromShip := config.minDistanceFromShip.getD 150
    splitCount := config.splitCount.getD 2 }

/-- AsteroidSpawner.getRandomSpeed (AsteroidSpawner.ts lines 230-233). -/
def getRandomSpeed (size : AsteroidSize) (rng : Rng) : ℝ × Rng :=
  let range := getSpeedRangeForSize size
  let s := rng.next
  (range.min + s.1 * (range.max - range.min), s.2)

/-- AsteroidSpawner.getRandomVelocity (AsteroidSpawner.ts lines 221-225). -/
noncomputable def getRandomVelocity (size : AsteroidSize) (rng : Rng) : Vector2D × Rng :=
  let a := rng.next
  let angle := a.1 * Real.pi * 2
  let sp := getRandomSpeed size a.2
  (Vector2D.fromAngle angle sp.1, sp.2)

/-- Retry loop of AsteroidSpawner.getRandomPosition (AsteroidSpawner.ts lines
195-216).  `fuel` counts the attempts still allowed after the present one:
the source breaks once `attempts >= 50`, so the loop enters with fuel 49.
Without an avoid position the first draw is always accepted. -/
noncomputable def randomPositionAttempts (worldWidth worldHeight minDist : ℝ)
    (avoid : Option Vector2D) : ℕ → Rng → Vector2D × Rng
  | fuel, rng =>
    let rx := rng.next
    let ry := rx.2.next
    let position : Vector2D := ⟨rx.1 * worldWidth, ry.1 * worldHeight⟩
    match avoid with
    | none => (position, ry.2)
    | some av =>
      match fuel with
      | 0 => (position, ry.2)
      | f + 1 =>
        if position.distanceTo av < minDist then
          randomPositionAttempts worldWidth worldHeight minDist avoid f ry.2
        else (position, ry.2)

/-- AsteroidSpawner.getRandomPosition (AsteroidSpawner.ts lines 195-216). -/
noncomputable def AsteroidSpawner.getRandomPosition (sp : AsteroidSpawner)
    (w : GameWorld) (avoid : Option Vector2D) (rng : Rng) : Vector2D × Rng :=
  randomPositionAttempts w.config.worldWidth w.config.worldHeight
    sp.minDistanceFromShip avoid 49 rng

/-- AsteroidSpawner.spawnAsteroid (AsteroidSpawner.ts lines 132-141): draw a
position and a velocity, construct the asteroid (one more sample for its
default rotation speed), and add it to the world. -/
noncomputable def AsteroidSpawner.spawnAsteroid (sp : AsteroidSpawner)
    (size : AsteroidSize) (avoid : Option Vector2D) (w : GameWorld) (rng : Rng) :
    Asteroid × GameWorld × Rng :=
  let pos := sp.getRandomPosition w avoid rng
  let vel := getRandomVelocity size pos.2
  let idw := w.generateEntityId "asteroid"
  let rr := vel.2.next
  let a := Asteroid.create idw.1 pos.1 vel.1 size {} rr.1
  (a, idw.2.addEntity (Entity.asteroid a), rr.2)

/-- AsteroidSpawner.spawnMultipleAsteroids (AsteroidSpawner.ts lines 146-152). -/
noncomputable def AsteroidSpawner.spawnMultipleAsteroids (sp : AsteroidSpawner)
    (count : ℕ) (size : AsteroidSize) (avoid : Option Vector2D)
    (w : GameWorld) (rng : Rng) : List Asteroid × GameWorld × Rng :=
  match count with
  | 0 => ([], w, rng)
  | n + 1 =>
    let first := sp.spawnAsteroid size avoid w rng
    let rest := sp.spawnMultipleAsteroids n size avoid first.2.1 first.2.2
    (first.1 :: rest.1, rest.2.1, rest.2.2)

/-- Inner loop of AsteroidSpawner.splitAsteroid (AsteroidSpawner.ts lines
171-187), producing the children for indices i, i+1, ..., splitCount-1. -/
noncomputable def splitAsteroidLoop (splitCount : ℕ) (parent : Asteroid)
    (smallerSize : AsteroidSize) : ℕ → GameWorld → Rng → List Asteroid × GameWorld × Rng
  | i, w, rng =>
    if h : i < splitCount then
      let j := rng.next
      let angle := Real.pi * 2 * i / splitCount + j.1 * 0.5
      let sp := getRandomSpeed smallerSize j.2
      let velocity := Vector2D.fromAngle angle sp.1
      let idw := w.generateEntityId "asteroid"
      let rr := sp.2.next
      let newAsteroid := Asteroid.create idw.1 parent.position velocity smallerSize {} rr.1
      let w1 := idw.2.addEntity (Entity.asteroid newAsteroid)
      let rest := splitAsteroidLoop splitCount parent smallerSize (i + 1) w1 rr.2
      (newAsteroid :: rest.1, rest.2.1, rest.2.2)
    else ([], w, rng)
termination_by i => splitCount - i

/-- AsteroidSpawner.splitAsteroid (AsteroidSpawner.ts lines 158-190): empty
when the asteroid cannot split; otherwise spawn splitCount children of the
next smaller size at the parent position and register them in the world. -/
noncomputable def AsteroidSpawner.splitAsteroid (sp : AsteroidSpawner)
    (a : Asteroid) (w : GameWorld) (rng : Rng) : List Asteroid × GameWorld × Rng :=
  if a.canSplit = false then ([], w, rng)
  else
    match a.getSmallerSize with
    | none => ([], w, rng)
    | some smallerSize => splitAsteroidLoop sp.splitCount a smallerSize 0 w rng

/-- AsteroidSpawner.spawnLevelAsteroids (AsteroidSpawner.ts lines 238-242):
3 + level LARGE asteroids avoiding the ship position. -/
noncomputable def AsteroidSpawner.spawnLevelAsteroids (sp : AsteroidSpawner)
    (level : ℕ) (shipPosition : Option Vector2D) (w : GameWorld) (rng : Rng) :
    List Asteroid × GameWorld × Rng :=
  sp.spawnMultipleAsteroids (3 + level) AsteroidSize.LARGE shipPosition w rng

attribute [instance] Classical.propDecidable

/-- CollisionManager.handleBulletAsteroidCollision (CollisionManager.ts lines
69-88): destroy the bullet, award the asteroid points, split the asteroid
into the world when it can split, then destroy the asteroid. -/
noncomputable def handleBulletAsteroidCollision (sp : AsteroidSpawner)
    (b : Bullet) (a : Asteroid) (w : GameWorld) (rng : Rng) :
    Bullet × Asteroid × GameWorld × Rng :=
  let b1 := { b with active := false }
  let w1 := w.addScore a.points
  let split :=
    if a.canSplit = true then sp.splitAsteroid a w1 rng else ([], w1, rng)
  let a1 := { a with active := false }
  (b1, a1, split.2.1, split.2.2)

/-- Result of running one bullet of the snapshot against the (current state
of the) asteroid snapshot: the bullet and asteroids after the run, the world
and random source, and the asteroids this bullet resolved against, recorded
as they were at resolution time. -/
structure BulletRunResult where
  bullet : Bullet
  asteroids : List Asteroid
  world : GameWorld
  rng : Rng
  kills : List Asteroid

/-- Inner loop of CollisionManager.checkCollisions (CollisionManager.ts lines
49-53) for one bullet: test the bullet against every asteroid of the
snapshot in order, resolving each pair that collides.  Mutation of the
shared bullet and asteroid objects is rendered by threading their updated
values; asteroids spawned by splits go to the world only, never into the
snapshot. -/
noncomputable def bulletVsAsteroids (sp : AsteroidSpawner) (b : Bullet) :
    List Asteroid → GameWorld → Rng → BulletRunResult
  | [], w, rng => ⟨b, [], w, rng, []⟩
  | a :: rest, w, rng =>
    if Entity.collidesWith (Entity.bullet b) (Entity.asteroid a) then
      let hres := handleBulletAsteroidCollision sp b a w rng
      let r := bulletVsAsteroids sp hres.1 rest hres.2.2.1 hres.2.2.2
      ⟨r.bullet, hres.2.1 :: r.asteroids, r.world, r.rng, a :: r.kills⟩
    else
      let r := bulletVsAsteroids sp b rest w rng
      ⟨r.bullet, a :: r.asteroids, r.world, r.rng, r.kills⟩

/-- Result of the bullet-asteroid phase over the whole bullet snapshot; kills
are tagged with the index of the responsible bullet in the snapshot. -/
structure BulletsRunResult where
  bullets : List Bullet
  asteroids : List Asteroid
  world : GameWorld
  rng : Rng
  kills : List (ℕ × Asteroid)

/-- Outer bullet loop of CollisionManager.checkCollisions (CollisionManager.ts
lines 48-54), starting at bullet index i. -/
noncomputable def bulletsVsAsteroids (sp : AsteroidSpawner) (i : ℕ) :
    List Bullet → List Asteroid → GameWorld → Rng → BulletsRunResult
  | [], asts, w, rng => ⟨[], asts, w, rng, []⟩
  | b :: bs, asts, w, rng =>
    let r := bulletVsAsteroids sp b asts w rng
    let rest := bulletsVsAsteroids sp (i + 1) bs r.asteroids r.world r.rng
    ⟨r.bullet :: rest.bullets, rest.asteroids, rest.world, rest.rng,
      r.kills.map (fun a => (i, a)) ++ rest.kills⟩

/-- Inner ship loop of CollisionManager.checkCollisions (CollisionManager.ts
lines 57-63) with handleShipAsteroidCollision (lines 93-101): the ship is
destroyed, the asteroid survives; the second component counts the
onShipDestroyed callbacks fired. -/
noncomputable def shipVsAsteroids (s : Ship) : List Asteroid → Ship × ℕ
  | [] => (s, 0)
  | a :: rest =>
    if Entity.collidesWith (Entity.ship s) (Entity.asteroid a) then
      let r := shipVsAsteroids { s with active := false } rest
      (r.1, r.2 + 1)
    else shipVsAsteroids s rest

/-- Outer ship loop of CollisionManager.checkCollisions. -/
noncomputable def shipsVsAsteroids : List Ship → List Asteroid → List Ship × ℕ
  | [], _ => ([], 0)
  | s :: ss, asts =>
    let r := shipVsAsteroids s asts
    let rest := shipsVsAsteroids ss asts
    (r.1 :: rest.1, r.2 + rest.2)

/-- Active-ship snapshot filter (CollisionManager.ts line 43). -/
def activeShips (es : List Entity) : List Ship :=
  es.filterMap fun e =>
    match e with
    | Entity.ship s => if s.active = true then some s else none
    | _ => none

/-- Active-bullet snapshot filter (CollisionManager.ts line 44). -/
def activeBullets (es : List Entity) : List Bullet :=
  es.filterMap fun e =>
    match e with
    | Entity.bullet b => if b.active = true then some b else none
    | _ => none

/-- Active-asteroid snapshot filter (CollisionManager.ts line 45). -/
def activeAsteroids (es : List Entity) : List Asteroid :=
  es.filterMap fun e =>
    match e with
    | Entity.asteroid a => if a.active = true then some a else none
    | _ => none

/-- Write the updated snapshot objects back over the world entity table entry
with the same id: the value-passing rendering of the reference aliasing
between the snapshot arrays and the entity Map. -/
def replaceById (updated : List Entity) (e : Entity) : Entity :=
  match updated.find? (fun u => u.idOf == e.idOf) with
  | some u => u
  | none => e

/-- Result of one CollisionManager.checkCollisions pass. -/
structure CollisionPassResult where
  world : GameWorld
  rng : Rng
  kills : List (ℕ × Asteroid)
  shipHits : ℕ

/-- CollisionManager.checkCollisions (CollisionManager.ts lines 39-64): build
the active-filtered snapshots, run every bullet against every asteroid, then
every ship against every asteroid, and fold the mutated snapshot objects
back into the world table. -/
noncomputable def checkCollisions (sp : AsteroidSpawner) (w : GameWorld)
    (rng : Rng) : CollisionPassResult :=
  let ships := activeShips w.entities
  let bullets := activeBullets w.entities
  let asteroids := activeAsteroids w.entities
  let br := bulletsVsAsteroids sp 0 bullets asteroids w rng
  let sr := shipsVsAsteroids ships br.asteroids
  let updated := sr.1.map Entity.ship ++ br.bullets.map Entity.bullet ++
    br.asteroids.map Entity.asteroid
  { world := { br.world with entities := br.world.entities.map (replaceById updated) }
    rng := br.rng
    kills := br.kills
    shipHits := sr.2 }

/-- CollisionManager.getAsteroidCount (CollisionManager.ts lines 106-110). -/
def getAsteroidCount (w : GameWorld) : ℕ :=
  (activeAsteroids w.entities).length

/-- CollisionManager.isLevelComplete (CollisionManager.ts lines 115-117). -/
def isLevelComplete (w : GameWorld) : Prop :=
  getAsteroidCount w = 0

/-- GameManager configuration (GameManager.ts lines 92-98): no field of it
mentions lives. -/
structure GameManagerConfig where
  worldWidth : Option ℝ := none
  worldHeight : Option ℝ := none
  shipConfig : Option ShipConfig := none
  shipControllerConfig : Option ShipControllerConfig := none
  asteroidSpawnerConfig : Option AsteroidSpawnerConfig := none

/-- The game manager (GameManager.ts lines 104-111). -/
structure GameManager where
  world : GameWorld
  ship : Option Ship
  shipController : Option ShipController
  asteroidSpawner : AsteroidSpawner
  lives : ℝ
  maxLives : ℝ

/-- The GameManager constructor (GameManager.ts lines 113-137): world size
defaults 800 by 600, no ship yet, and both lives and maxLives hard-coded
to 3 whatever the configuration holds. -/
def GameManager.create (config : GameManagerConfig) : GameManager :=
  { world := GameWorld.create
      ⟨(config.worldWidth).getD 800, (config.worldHeight).getD 600⟩
    ship := none
    shipController := none
    asteroidSpawner := AsteroidSpawner.create ((config.asteroidSpawnerConfig).getD {})
    lives := 3
    maxLives := 3 }

/-- GameManager.startLevel (GameManager.ts lines 187-202): fresh ship at the
world center, fresh controller, then the level asteroids. -/
noncomputable def GameManager.startLevel (level : ℕ) (gm : GameManager)
    (rng : Rng) : GameManager × Rng :=
  let shipPosition := gm.world.getWorldCenter
  let idw := gm.world.generateEntityId "ship"
  let ship := Ship.create idw.1 shipPosition {}
  let w2 := idw.2.addEntity (Entity.ship ship)
  let controller := ShipController.create {}
  let spawn := gm.asteroidSpawner.spawnLevelAsteroids level (some shipPosition) w2 rng
  ({ gm with world := spawn.2.1, ship := some ship, shipController := some controller },
    spawn.2.2)

/-- GameManager.startNewGame (GameManager.ts lines 177-182): reset the world,
restore lives to maxLives, force PLAYING, start level 1. -/
noncomputable def GameManager.startNewGame (gm : GameManager) (rng : Rng) :
    GameManager × Rng :=
  let w1 := gm.world.reset
  let gm1 := { gm with world := w1.startGame, lives := gm.maxLives }
  GameManager.startLevel 1 gm1 rng

/-- GameManager.handleShipDestroyed (GameManager.ts lines 221-227). -/
noncomputable def GameManager.handleShipDestroyed (gm : GameManager) : GameManager :=
  let gm1 := { gm with lives := gm.lives - 1 }
  if gm1.lives ≤ 0 then { gm1 with world := gm1.world.gameOver } else gm1

/-- Drag application of Ship.update (Ship.ts lines 100-101): one velocity
decay step velocity := velocity * drag^dt. -/
noncomputable def applyDrag (drag dt : ℝ) (v : Vector2D) : Vector2D :=
  v.multiply (drag ^ dt)

theorem shipDragStep_velocity (dt : ℝ) (s : Ship) :
    (shipDragStep dt s).velocity = applyDrag s.drag dt s.velocity := rfl

/-- The drag step of Ship.update iterated over n consecutive frames of equal
duration dt. -/
noncomputable def applyDragIter (drag dt : ℝ) (n : ℕ) (v : Vector2D) : Vector2D :=
  (applyDrag drag dt)^[n] v

theorem Vector2D.multiply_multiply (v : Vector2D) (a b : ℝ) :
    (v.multiply a).multiply b = v.multiply (a * b) := by
  simp [Vector2D.multiply, mul_assoc]

theorem Vector2D.multiply_one (v : Vector2D) : v.multiply 1 = v := by
  simp [Vector2D.multiply]

theorem Vector2D.magnitude_fromAngle (a : ℝ) :
    (Vector2D.fromAngle a).magnitude = 1 := by
  unfold Vector2D.fromAngle Vector2D.magnitude
  have h : Real.cos a * 1 * (Real.cos a * 1) + Real.sin a * 1 * (Real.sin a * 1) = 1 := by
    have := Real.sin_sq_add_cos_sq a
    nlinarith [this]
  rw [h, Real.sqrt_one]

theorem Vector2D.normalize_of_magnitude_one {v : Vector2D} (h : v.magnitude = 1) :
    v.normalize = v := by
  unfold Vector2D.normalize
  rw [if_neg (by rw [h]; norm_num), h]
  cases v
  simp

/-- C8: wrapAroundBounds teleports a coordinate to the opposite edge only
under strict inequality — x below 0 maps to the width, x above the width maps
to 0, values at 0 or at the boundary stay put (same for y with the height) —
and a position at (850, 300) in an 800 by 600 world has x = 0 after one
call. -/
theorem c8_wrapAroundBounds_strict :
    (∀ (p : Vector2D) (w h : ℝ), 0 ≤ w → 0 ≤ h →
      ((p.x < 0 → (wrapAroundBounds p w h).x = w) ∧
       (p.x > w → (wrapAroundBounds p w h).x = 0) ∧
       (0 ≤ p.x → p.x ≤ w → (wrapAroundBounds p w h).x = p.x) ∧
       (p.y < 0 → (wrapAroundBounds p w h).y = h) ∧
       (p.y > h → (wrapAroundBounds p w h).y = 0) ∧
       (0 ≤ p.y → p.y ≤ h → (wrapAroundBounds p w h).y = p.y))) ∧
    (wrapAroundBounds ⟨850, 300⟩ 800 600).x = 0 := by
  constructor
  · intro p w h hw hh
    refine ⟨?_, ?_, ?_, ?_, ?_, ?_⟩ <;>
      · intros
        simp only [wrapAroundBounds]
        split_ifs <;> first | rfl | linarith
  · norm_num [wrapAroundBounds]

/-- Concrete world refuting C7 as stated: any world whose id counter is not
zero. -/
def c7World : GameWorld :=
  { GameWorld.create ⟨800, 600⟩ with entityIdCounter := 1 }

/-- C7 counterexample: startGame and reset do NOT agree on the id counter —
startGame leaves it alone while reset zeroes it, so on a world whose counter
is 1 the two results differ in a third respect besides state and entity
table. -/
theorem c7_counterexample :
    (GameWorld.startGame c7World).entityIdCounter ≠
      (GameWorld.reset c7World).entityIdCounter := by
  simp [c7World, GameWorld.startGame, GameWorld.reset, GameWorld.create]

/-- C7 amended: startGame differs from reset in exactly three respects —
resulting state (PLAYING vs READY), entity table (kept vs cleared), and id
counter (kept vs zeroed); score, level, configuration and mouse position end
up equal under the two operations. -/
theorem c7_startGame_vs_reset :
    ∀ w : GameWorld,
      (w.startGame.currentScore = w.reset.currentScore ∧
       w.startGame.currentLevel = w.reset.currentLevel ∧
       w.startGame.config = w.reset.config ∧
       w.startGame.mousePosition = w.reset.mousePosition) ∧
      (w.startGame.currentState = GameState.PLAYING ∧
       w.reset.currentState = GameState.READY) ∧
      (w.startGame.entities = w.entities ∧ w.reset.entities = []) ∧
      (w.startGame.entityIdCounter = w.entityIdCounter ∧
       w.reset.entityIdCounter = 0) := by
  intro w
  simp [GameWorld.startGame, GameWorld.reset]

/-- C9: divide signals an error exactly when the scalar is zero; normalize
never signals an error (the checked variant always succeeds and agrees with
the total one), yields a vector of magnitude exactly 1 on every nonzero
vector, and maps the zero vector to the zero vector. -/
theorem c9_divide_normalize :
    (∀ (v : Vector2D) (s : ℝ), v.divide s = none ↔ s = 0) ∧
    (∀ v : Vector2D, v.normalizeChecked = some v.normalize) ∧
    (∀ v : Vector2D, v ≠ ⟨0, 0⟩ → v.normalize.magnitude = 1) ∧
    Vector2D.normalize ⟨0, 0⟩ = ⟨0, 0⟩ := by
  have hzero : (⟨0, 0⟩ : Vector2D).magnitude = 0 := by
    simp [Vector2D.magnitude]
  refine ⟨?_, ?_, ?_, ?_⟩
  · intro v s
    unfold Vector2D.divide
    split_ifs with h <;> simp [h]
  · intro v
    unfold Vector2D.normalizeChecked Vector2D.normalize Vector2D.divide
    split_ifs with h
    · rfl
    · rfl
  · intro v hv
    have hm : v.magnitude ≠ 0 := fun h => hv (Vector2D.magnitude_eq_zero.mp h)
    exact Vector2D.magnitude_normalize hm
  · unfold Vector2D.normalize
    rw [if_pos hzero]

/-- C6: for every entity variant, once active is false an update call returns
the entity record completely unchanged, for every time step (and, for the
ship, every aim target). -/
theorem c6_inactive_update_unchanged :
    (∀ (dt : ℝ) (mp : Option Vector2D) (s : Ship),
      s.active = false → Ship.update dt mp s = s) ∧
    (∀ (dt : ℝ) (b : Bullet), b.active = false → Bullet.update dt b = b) ∧
    (∀ (dt : ℝ) (a : Asteroid), a.active = false → Asteroid.update dt a = a) := by
  refine ⟨?_, ?_, ?_⟩
  · intro dt mp s h
    unfold Ship.update
    rw [if_pos h]
  · intro dt b h
    unfold Bullet.update
    rw [if_pos h]
  · intro dt a h
    unfold Asteroid.update
    rw [if_pos h]

theorem shipRotationStep_maxSpeed (dt : ℝ) (mp : Option Vector2D) (s : Ship) :
    (shipRotationStep dt mp s).maxSpeed = s.maxSpeed := by
  cases mp with
  | none => rfl
  | some mp =>
    simp only [shipRotationStep]
    split_ifs <;> rfl

theorem shipThrustStep_maxSpeed (dt : ℝ) (s : Ship) :
    (shipThrustStep dt s).maxSpeed = s.maxSpeed := by
  unfold shipThrustStep
  split_ifs
  · cases s.targetPosition <;> rfl
  · rfl

theorem shipDragStep_maxSpeed (dt : ℝ) (s : Ship) :
    (shipDragStep dt s).maxSpeed = s.maxSpeed := rfl

theorem shipClampStep_magnitude_le (s : Ship) (hM : 0 ≤ s.maxSpeed) :
    (shipClampStep s).velocity.magnitude ≤ s.maxSpeed := by
  unfold shipClampStep
  split_ifs with h
  · have hne : s.velocity.magnitude ≠ 0 := ne_of_gt (lt_of_le_of_lt hM h)
    show (s.velocity.normalize.multiply s.maxSpeed).magnitude ≤ s.maxSpeed
    rw [Vector2D.magnitude_multiply, Vector2D.magnitude_normalize hne,
      abs_of_nonneg hM]
    simp
  · exact le_of_not_lt h

/-- C5 amended: after Ship.update on an ACTIVE ship whose maxSpeed is
nonnegative, the velocity magnitude is at most maxSpeed — the claim as
stated fails for inactive ships, which the early return leaves untouched
together with whatever velocity they carry. -/
theorem c5_speed_clamp (dt : ℝ) (mp : Option Vector2D) (s : Ship)
    (hactive : s.active = true) (hmax : 0 ≤ s.maxSpeed) :
    (Ship.update dt mp s).velocity.magnitude ≤ s.maxSpeed := by
  unfold Ship.update
  rw [if_neg (by simp [hactive])]
  set t := shipDragStep dt (shipThrustStep dt (shipRotationStep dt mp s)) with ht
  have hms : t.maxSpeed = s.maxSpeed := by
    rw [ht, shipDragStep_maxSpeed, shipThrustStep_maxSpeed, shipRotationStep_maxSpeed]
  have hvel : (shipIntegrateStep dt (shipClampStep t)).velocity =
      (shipClampStep t).velocity := rfl
  rw [hvel]
  have hle := shipClampStep_magnitude_le t (by rw [hms]; exact hmax)
  rwa [hms] at hle

/-- C5 witness: a freshly constructed active ship stays within its maximum
speed through an update. -/
theorem c5_speed_clamp_witness :
    (Ship.update 1 none (Ship.create "ship_0" ⟨0, 0⟩ {})).velocity.magnitude ≤
      (Ship.create "ship_0" ⟨0, 0⟩ {}).maxSpeed :=
  c5_speed_clamp 1 none (Ship.create "ship_0" ⟨0, 0⟩ {}) rfl
    (by simp [Ship.create])

/-- Concrete ship refuting C5 as stated: inactive, carrying a velocity of
magnitude 400 against a maxSpeed of 300. -/
def c5Ship : Ship :=
  { Ship.create "ship_0" ⟨0, 0⟩ {} with active := false, velocity := ⟨400, 0⟩ }

/-- C5 counterexample: on an inactive ship Ship.update performs no clamping
at all, so the velocity magnitude stays 400, above maxSpeed 300. -/
theorem c5_counterexample :
    ¬ ((Ship.update 1 none c5Ship).velocity.magnitude ≤ c5Ship.maxSpeed) := by
  have hupd : Ship.update 1 none c5Ship = c5Ship := by
    unfold Ship.update
    rw [if_pos (show c5Ship.active = false from rfl)]
  rw [hupd]
  have hmag : c5Ship.velocity.magnitude = 400 := by
    show Vector2D.magnitude ⟨400, 0⟩ = 400
    unfold Vector2D.magnitude
    rw [show (400 : ℝ) * 400 + 0 * 0 = 400 ^ 2 by norm_num, Real.sqrt_sq (by norm_num)]
  have hms : c5Ship.maxSpeed = 300 := rfl
  rw [hmag, hms]
  norm_num

/-- C10 (implicit claim): lives are hard-coded — every configuration yields a
manager with lives 3 and maxLives 3, startNewGame always restores lives to
maxLives, hence to exactly 3 on any constructed manager; no configuration
field feeds the count. -/
theorem c10_lives_not_configurable :
    (∀ config : GameManagerConfig,
      (GameManager.create config).lives = 3 ∧ (GameManager.create config).maxLives = 3) ∧
    (∀ (gm : GameManager) (rng : Rng), (gm.startNewGame rng).1.lives = gm.maxLives) ∧
    (∀ (config : GameManagerConfig) (rng : Rng),
      ((GameManager.create config).startNewGame rng).1.lives = 3) := by
  refine ⟨fun config => ⟨rfl, rfl⟩, ?_, ?_⟩
  · intro gm rng
    simp [GameManager.startNewGame, GameManager.startLevel]
  · intro config rng
    simp [GameManager.startNewGame, GameManager.startLevel, GameManager.create]

theorem applyDragIter_eq_multiply (drag dt : ℝ) (n : ℕ) (v : Vector2D) :
    applyDragIter drag dt n v = v.multiply ((drag ^ dt) ^ n) := by
  induction n generalizing v with
  | zero => simp [applyDragIter, Vector2D.multiply_one]
  | succ k ih =>
    have h1 : applyDragIter drag dt (k + 1) v =
        applyDragIter drag dt k (applyDrag drag dt v) := by
      unfold applyDragIter
      exact Function.iterate_succ_apply _ _ _
    rw [h1, ih]
    unfold applyDrag
    rw [Vector2D.multiply_multiply]
    congr 1
    rw [pow_succ]
    ring

/-- C3: ship drag is framerate-independent — for every starting velocity,
nonnegative drag coefficient, duration T above 0 and positive substep count
n, iterating the per-frame decay velocity := velocity * drag^(T/n) over n
substeps equals one decay step of size T, exactly, over the reals. -/
theorem c3_drag_framerate_independent (drag T : ℝ) (v : Vector2D) (n : ℕ)
    (hdrag : 0 ≤ drag) (hT : 0 < T) (hn : n ≠ 0) :
    applyDragIter drag (T / (n : ℝ)) n v = applyDrag drag T v := by
  rw [applyDragIter_eq_multiply]
  unfold applyDrag
  congr 1
  have hnR : ((n : ℝ)) ≠ 0 := Nat.cast_ne_zero.mpr hn
  rw [← Real.rpow_natCast (drag ^ (T / (n : ℝ))) n, ← Real.rpow_mul hdrag]
  congr 1
  field_simp

/-- C3 witness: drag one half, duration one second, two substeps. -/
theorem c3_drag_framerate_independent_witness :
    applyDragIter (1 / 2) (1 / ((2 : ℕ) : ℝ)) 2 ⟨1, 0⟩ = applyDrag (1 / 2) 1 ⟨1, 0⟩ :=
  c3_drag_framerate_independent (1 / 2) 1 ⟨1, 0⟩ 2 (le_of_lt one_half_pos) one_pos
    (by decide)

theorem GameWorld.mem_addEntity (w : GameWorld) (e : Entity) :
    e ∈ (w.addEntity e).entities := by
  unfold GameWorld.addEntity
  split_ifs with h
  · rw [List.any_eq_true] at h
    obtain ⟨e2, he2, hid⟩ := h
    simp only [List.mem_map]
    exact ⟨e2, he2, by rw [if_pos (of_decide_eq_true hid)]⟩
  · simp

/-- Ship used by the C2 fire-rate scenario. -/
def sampleShip : Ship := Ship.create "ship_0" ⟨400, 300⟩ {}

/-- World used by the C2 fire-rate scenario. -/
def sampleWorld : GameWorld := GameWorld.create ⟨800, 600⟩

/-- Scenario step: fire at t = 0 from a fresh controller with fire rate 5. -/
noncomputable def c2Fire0 : Option Bullet × ShipController × GameWorld :=
  (ShipController.create { fireRate := some 5 }).fire sampleShip sampleWorld

/-- Scenario step: fire again at t = 0.1 after one 0.1 s update. -/
noncomputable def c2Fire1 : Option Bullet × ShipController × GameWorld :=
  (ShipController.update 0.1 c2Fire0.2.1).fire sampleShip c2Fire0.2.2

/-- Scenario step: fire at t = 0.21 after a further 0.11 s update. -/
noncomputable def c2Fire2 : Option Bullet × ShipController × GameWorld :=
  (ShipController.update 0.11 c2Fire1.2.1).fire sampleShip c2Fire1.2.2

/-- C2: fire() returns no bullet, leaving controller and world untouched, if
and only if the timer is under one interval 1/fireRate; otherwise it returns
a bullet at the exact ship position moving along the ship facing direction
(the facing unit vector scaled by the bullet speed), registers it in the
world and zeroes the timer.  With fire rate 5 and a controller born ready:
fire at t = 0 succeeds, fire at t = 0.1 fails, fire at t = 0.21 succeeds. -/
theorem c2_fire_gate :
    (∀ (c : ShipController) (s : Ship) (w : GameWorld),
      ((c.fire s w).1 = none ↔ c.timeSinceLastShot < 1 / c.fireRate) ∧
      (c.timeSinceLastShot < 1 / c.fireRate → c.fire s w = (none, c, w)) ∧
      (¬ c.timeSinceLastShot < 1 / c.fireRate →
        ∃ b : Bullet,
          (c.fire s w).1 = some b ∧
          b.position = s.position ∧
          b.velocity = s.getDirection.multiply (c.bulletConfig.speed.getD 500) ∧
          (c.fire s w).2.1 = { c with timeSinceLastShot := 0 } ∧
          Entity.bullet b ∈ (c.fire s w).2.2.entities)) ∧
    (c2Fire0.1.isSome = true ∧ c2Fire1.1 = none ∧ c2Fire2.1.isSome = true) := by
  constructor
  · intro c s w
    unfold ShipController.fire
    split_ifs with h
    · exact ⟨iff_of_true rfl h, fun _ => rfl, fun hc => absurd h hc⟩
    · refine ⟨iff_of_false (by simp) h, fun hc => absurd hc h, fun _ => ?_⟩
      refine ⟨_, rfl, rfl, ?_, rfl, GameWorld.mem_addEntity _ _⟩
      show (s.getDirection.normalize.multiply (c.bulletConfig.speed.getD 500)) =
        s.getDirection.multiply (c.bulletConfig.speed.getD 500)
      have hdir : s.getDirection.magnitude = 1 :=
        Vector2D.magnitude_fromAngle s.rotation
      rw [Vector2D.normalize_of_magnitude_one hdir]
  · have hcr : ShipController.create { fireRate := some 5 } =
        { fireRate := 5, timeSinceLastShot := 1 / 5, bulletConfig := {} } := rfl
    have h0 : ¬ ((1 : ℝ) / 5 < 1 / 5) := by norm_num
    have h1 : (0 : ℝ) + 0.1 < 1 / 5 := by norm_num
    have h2 : ¬ ((0 : ℝ) + 0.1 + 0.11 < 1 / 5) := by norm_num
    refine ⟨?_, ?_, ?_⟩ <;>
      simp only [c2Fire2, c2Fire1, c2Fire0, hcr, ShipController.fire,
        ShipController.update, h0, h1, h2, if_true, if_false, if_neg, if_pos,
        Option.isSome_some]

theorem handleBulletAsteroidCollision_bullet (sp : AsteroidSpawner)
    (b : Bullet) (a : Asteroid) (w : GameWorld) (rng : Rng) :
    (handleBulletAsteroidCollision sp b a w rng).1 = { b with active := false } := rfl

theorem bulletVsAsteroids_kills_of_inactive (sp : AsteroidSpawner) (b : Bullet)
    (hb : b.active = false) (asts : List Asteroid) (w : GameWorld) (rng : Rng) :
    (bulletVsAsteroids sp b asts w rng).kills = [] := by
  induction asts generalizing w rng with
  | nil => rfl
  | cons a rest ih =>
    rw [bulletVsAsteroids]
    have hnc : ¬ Entity.collidesWith (Entity.bullet b) (Entity.asteroid a) := by
      intro hc
      have hba : b.active = true := hc.1
      rw [hb] at hba
      exact Bool.false_ne_true hba
    rw [if_neg hnc]
    exact ih _ _

theorem bulletVsAsteroids_kills_length_le_one (sp : AsteroidSpawner) (b : Bullet)
    (asts : List Asteroid) (w : GameWorld) (rng : Rng) :
    (bulletVsAsteroids sp b asts w rng).kills.length ≤ 1 := by
  induction asts generalizing b w rng with
  | nil => simp [bulletVsAsteroids]
  | cons a rest ih =>
    rw [bulletVsAsteroids]
    split_ifs with hc
    · show ((a :: (bulletVsAsteroids sp (handleBulletAsteroidCollision sp b a w rng).1
        rest _ _).kills).length) ≤ 1
      rw [handleBulletAsteroidCollision_bullet,
        bulletVsAsteroids_kills_of_inactive sp _ rfl]
      simp
    · exact ih b w rng

theorem bulletsVsAsteroids_kills_index_ge (sp : AsteroidSpawner)
    (bs : List Bullet) :
    ∀ (i : ℕ) (asts : List Asteroid) (w : GameWorld) (rng : Rng),
      ∀ k ∈ (bulletsVsAsteroids sp i bs asts w rng).kills, i ≤ k.1 := by
  induction bs with
  | nil => intro i asts w rng k hk; simp [bulletsVsAsteroids] at hk
  | cons b bs ih =>
    intro i asts w rng k hk
    rw [bulletsVsAsteroids] at hk
    simp only [List.mem_append, List.mem_map] at hk
    rcases hk with ⟨a, _, rfl⟩ | hk
    · exact le_refl i
    · exact le_trans (Nat.le_succ i) (ih (i + 1) _ _ _ k hk)

theorem bulletsVsAsteroids_countP_le_one (sp : AsteroidSpawner)
    (bs : List Bullet) :
    ∀ (i : ℕ) (asts : List Asteroid) (w : GameWorld) (rng : Rng) (j : ℕ),
      ((bulletsVsAsteroids sp i bs asts w rng).kills.countP (fun k => k.1 == j)) ≤ 1 := by
  induction bs with
  | nil => intro i asts w rng j; simp [bulletsVsAsteroids]
  | cons b bs ih =>
    intro i asts w rng j
    rw [bulletsVsAsteroids]
    show (((bulletVsAsteroids sp b asts w rng).kills.map (fun a => (i, a)) ++
        (bulletsVsAsteroids sp (i + 1) bs _ _ _).kills).countP (fun k => k.1 == j)) ≤ 1
    rw [List.countP_append]
    by_cases hij : i = j
    · subst hij
      have h2 : ((bulletsVsAsteroids sp (i + 1) bs
          (bulletVsAsteroids sp b asts w rng).asteroids
          (bulletVsAsteroids sp b asts w rng).world
          (bulletVsAsteroids sp b asts w rng).rng).kills.countP
          (fun k => k.1 == i)) = 0 := by
        rw [List.countP_eq_zero]
        intro k hk
        have hge := bulletsVsAsteroids_kills_index_ge sp bs (i + 1) _ _ _ k hk
        simp only [beq_iff_eq]
        omega
      rw [h2]
      have h1 : (((bulletVsAsteroids sp b asts w rng).kills.map
          (fun a => (i, a))).countP (fun k => k.1 == i)) ≤ 1 := by
        rw [List.countP_map]
        have hcomp : ((fun (k : ℕ × Asteroid) => k.1 == i) ∘ (fun a => (i, a))) =
            fun _ => true := by
          funext a
          simp
        rw [hcomp, List.countP_true]
        exact bulletVsAsteroids_kills_length_le_one sp b asts w rng
      omega
    · have h1 : (((bulletVsAsteroids sp b asts w rng).kills.map
          (fun a => (i, a))).countP (fun k => k.1 == j)) = 0 := by
        rw [List.countP_map, List.countP_eq_zero]
        intro a _
        simp [hij]
      rw [h1]
      simpa using ih (i + 1) _ _ _ j

/-- C1: in one checkCollisions pass every bullet resolves against at most one
asteroid — for every world state and every bullet index, the pass records at
most one bullet-asteroid resolution for that bullet (the bullet is re-tested
against later asteroids, but collidesWith rejects it once destroyed), and
one inner-loop run of a single bullet over any asteroid snapshot yields at
most one kill. -/
theorem c1_at_most_one_kill_per_bullet :
    (∀ (sp : AsteroidSpawner) (w : GameWorld) (rng : Rng) (j : ℕ),
      ((checkCollisions sp w rng).kills.countP (fun k => k.1 == j)) ≤ 1) ∧
    (∀ (sp : AsteroidSpawner) (b : Bullet) (asts : List Asteroid)
        (w : GameWorld) (rng : Rng),
      (bulletVsAsteroids sp b asts w rng).kills.length ≤ 1) := by
  constructor
  · intro sp w rng j
    show ((bulletsVsAsteroids sp 0 (activeBullets w.entities)
        (activeAsteroids w.entities) w rng).kills.countP (fun k => k.1 == j)) ≤ 1
    exact bulletsVsAsteroids_countP_le_one sp _ 0 _ _ _ j
  · exact bulletVsAsteroids_kills_length_le_one

theorem splitAsteroidLoop_score (c : ℕ) (p : Asteroid) (sz : AsteroidSize) :
    ∀ (n i : ℕ) (w : GameWorld) (rng : Rng), c - i ≤ n →
      (splitAsteroidLoop c p sz i w rng).2.1.currentScore = w.currentScore := by
  intro n
  induction n with
  | zero =>
    intro i w rng hn
    rw [splitAsteroidLoop, dif_neg (by omega)]
  | succ m ihm =>
    intro i w rng hn
    rw [splitAsteroidLoop]
    by_cases h : i < c
    · rw [dif_pos h]
      dsimp only
      exact (ihm (i + 1) _ _ (by omega)).trans rfl
    · rw [dif_neg h]

theorem splitAsteroid_score (sp : AsteroidSpawner) (a : Asteroid)
    (w : GameWorld) (rng : Rng) :
    (sp.splitAsteroid a w rng).2.1.currentScore = w.currentScore := by
  unfold AsteroidSpawner.splitAsteroid
  split_ifs with h
  · rfl
  · cases hs : a.getSmallerSize with
    | none => simp only [hs]
    | some smaller =>
      simp only [hs]
      exact splitAsteroidLoop_score sp.splitCount a smaller sp.splitCount 0 w rng
        (by omega)

theorem handleBulletAsteroidCollision_score (sp : AsteroidSpawner) (b : Bullet)
    (a : Asteroid) (w : GameWorld) (rng : Rng) :
    (handleBulletAsteroidCollision sp b a w rng).2.2.1.currentScore =
      w.currentScore + a.points := by
  unfold handleBulletAsteroidCollision
  split_ifs with h
  · dsimp only
    exact (splitAsteroid_score sp a (w.addScore a.points) rng).trans rfl
  · rfl

theorem bulletVsAsteroids_score (sp : AsteroidSpawner) (b : Bullet)
    (asts : List Asteroid) (w : GameWorld) (rng : Rng) :
    (bulletVsAsteroids sp b asts w rng).world.currentScore =
      w.currentScore +
        ((bulletVsAsteroids sp b asts w rng).kills.map (fun a => a.points)).sum := by
  induction asts generalizing b w rng with
  | nil => simp [bulletVsAsteroids]
  | cons a rest ih =>
    rw [bulletVsAsteroids]
    split_ifs with hc
    · dsimp only
      rw [ih, handleBulletAsteroidCollision_score]
      simp only [List.map_cons, List.sum_cons]
      ring
    · dsimp only
      rw [ih]

theorem bulletsVsAsteroids_score (sp : AsteroidSpawner) (bs : List Bullet) :
    ∀ (i : ℕ) (asts : List Asteroid) (w : GameWorld) (rng : Rng),
      (bulletsVsAsteroids sp i bs asts w rng).world.currentScore =
        w.currentScore +
          ((bulletsVsAsteroids sp i bs asts w rng).kills.map
            (fun k => k.2.points)).sum := by
  induction bs with
  | nil => intro i asts w rng; simp [bulletsVsAsteroids]
  | cons b bs ih =>
    intro i asts w rng
    rw [bulletsVsAsteroids]
    dsimp only
    rw [ih, bulletVsAsteroids_score, List.map_append, List.sum_append, List.map_map]
    have hmm : ((fun (k : ℕ × Asteroid) => k.2.points) ∘ (fun a => (i, a))) =
        fun (a : Asteroid) => a.points := rfl
    rw [hmm]
    ring

theorem bulletVsAsteroids_points_inv (sp : AsteroidSpawner) (b : Bullet)
    (asts : List Asteroid) (w : GameWorld) (rng : Rng)
    (hp : ∀ a ∈ asts, a.points = getPointsForSize a.size) :
    (∀ a ∈ (bulletVsAsteroids sp b asts w rng).asteroids,
      a.points = getPointsForSize a.size) ∧
    (∀ a ∈ (bulletVsAsteroids sp b asts w rng).kills,
      a.points = getPointsForSize a.size) := by
  induction asts generalizing b w rng with
  | nil => simp [bulletVsAsteroids]
  | cons a rest ih =>
    have hpa : a.points = getPointsForSize a.size := hp a (List.mem_cons_self a rest)
    have hprest : ∀ x ∈ rest, x.points = getPointsForSize x.size :=
      fun x hx => hp x (List.mem_cons_of_mem a hx)
    rw [bulletVsAsteroids]
    split_ifs with hc
    · dsimp only
      obtain ⟨iha, ihk⟩ := ih _ _ _ hprest
      constructor
      · intro x hx
        rcases List.mem_cons.mp hx with rfl | hx
        · exact hpa
        · exact iha x hx
      · intro x hx
        rcases List.mem_cons.mp hx with rfl | hx
        · exact hpa
        · exact ihk x hx
    · dsimp only
      obtain ⟨iha, ihk⟩ := ih _ _ _ hprest
      constructor
      · intro x hx
        rcases List.mem_cons.mp hx with rfl | hx
        · exact hpa
        · exact iha x hx
      · exact ihk

theorem bulletsVsAsteroids_points_inv (sp : AsteroidSpawner) (bs : List Bullet) :
    ∀ (i : ℕ) (asts : List Asteroid) (w : GameWorld) (rng : Rng),
      (∀ a ∈ asts, a.points = getPointsForSize a.size) →
      ∀ k ∈ (bulletsVsAsteroids sp i bs asts w rng).kills,
        k.2.points = getPointsForSize k.2.size := by
  induction bs with
  | nil => intro i asts w rng hp k hk; simp [bulletsVsAsteroids] at hk
  | cons b bs ih =>
    intro i asts w rng hp k hk
    rw [bulletsVsAsteroids] at hk
    dsimp only at hk
    rcases List.mem_append.mp hk with hk | hk
    · obtain ⟨a, ha, rfl⟩ := List.mem_map.mp hk
      exact (bulletVsAsteroids_points_inv sp b asts w rng hp).2 a ha
    · exact ih (i + 1) _ _ _ (bulletVsAsteroids_points_inv sp b asts w rng hp).1 k hk

theorem getPointsForSize_nonneg (sz : AsteroidSize) : 0 ≤ getPointsForSize sz := by
  cases sz <;> norm_num [getPointsForSize]

/-- C4: over one collision pass the world score never decreases and ends at
exactly the starting score plus the points of the asteroids destroyed by
bullets; every such asteroid carries the size-determined point value
(SMALL 100, MEDIUM 50, LARGE 20), the value the Asteroid constructor bakes
in — provided the asteroid snapshot carries constructor-built point values,
which every asteroid entering the world does. -/
theorem c4_score_monotone_exact (sp : AsteroidSpawner) (w : GameWorld) (rng : Rng)
    (hp : ∀ a ∈ activeAsteroids w.entities, a.points = getPointsForSize a.size) :
    ((checkCollisions sp w rng).world.currentScore =
      w.currentScore +
        ((checkCollisions sp w rng).kills.map (fun k => k.2.points)).sum) ∧
    (∀ k ∈ (checkCollisions sp w rng).kills,
      k.2.points = getPointsForSize k.2.size) ∧
    w.currentScore ≤ (checkCollisions sp w rng).world.currentScore ∧
    (getPointsForSize AsteroidSize.SMALL = 100 ∧
     getPointsForSize AsteroidSize.MEDIUM = 50 ∧
     getPointsForSize AsteroidSize.LARGE = 20) ∧
    (∀ (id : String) (pos vel : Vector2D) (size : AsteroidSize)
        (cfg : AsteroidConfig) (rnd : ℝ),
      (Asteroid.create id pos vel size cfg rnd).points = getPointsForSize size) := by
  have hscore : (checkCollisions sp w rng).world.currentScore =
      w.currentScore +
        ((checkCollisions sp w rng).kills.map (fun k => k.2.points)).sum := by
    show (bulletsVsAsteroids sp 0 (activeBullets w.entities)
        (activeAsteroids w.entities) w rng).world.currentScore = _
    exact bulletsVsAsteroids_score sp _ 0 _ w rng
  have hkills : ∀ k ∈ (checkCollisions sp w rng).kills,
      k.2.points = getPointsForSize k.2.size := by
    intro k hk
    exact bulletsVsAsteroids_points_inv sp _ 0 _ w rng hp k hk
  refine ⟨hscore, hkills, ?_, ⟨rfl, rfl, rfl⟩, fun _ _ _ _ _ _ => rfl⟩
  rw [hscore]
  have hsum : 0 ≤ ((checkCollisions sp w rng).kills.map (fun k => k.2.points)).sum := by
    apply List.sum_nonneg
    intro x hx
    obtain ⟨k, hk, rfl⟩ := List.mem_map.mp hx
    rw [hkills k hk]
    exact getPointsForSize_nonneg _
  linarith

/-- Asteroid used by the C4 witness world. -/
def c4Asteroid : Asteroid :=
  Asteroid.create "asteroid_0" ⟨0, 0⟩ ⟨0, 0⟩ AsteroidSize.LARGE {} 0

/-- World used by the C4 witness: one freshly constructed large asteroid. -/
def c4World : GameWorld :=
  (GameWorld.create ⟨800, 600⟩).addEntity (Entity.asteroid c4Asteroid)

/-- Random source used by the C4 witness. -/
def c4Rng : Rng := ⟨fun _ => 0, 0⟩

/-- C4 witness: the pass over a world holding one constructor-built asteroid,
with the table hypothesis discharged concretely. -/
theorem c4_score_monotone_exact_witness :
    ((checkCollisions (AsteroidSpawner.create {}) c4World c4Rng).world.currentScore =
      c4World.currentScore +
        ((checkCollisions (AsteroidSpawner.create {}) c4World c4Rng).kills.map
          (fun k => k.2.points)).sum) ∧
    (∀ k ∈ (checkCollisions (AsteroidSpawner.create {}) c4World c4Rng).kills,
      k.2.points = getPointsForSize k.2.size) ∧
    c4World.currentScore ≤
      (checkCollisions (AsteroidSpawner.create {}) c4World c4Rng).world.currentScore ∧
    (getPointsForSize AsteroidSize.SMALL = 100 ∧
     getPointsForSize AsteroidSize.MEDIUM = 50 ∧
     getPointsForSize AsteroidSize.LARGE = 20) ∧
    (∀ (id : String) (pos vel : Vector2D) (size : AsteroidSize)
        (cfg : AsteroidConfig) (rnd : ℝ),
      (Asteroid.create id pos vel size cfg rnd).points = getPointsForSize size) :=
  c4_score_monotone_exact (AsteroidSpawner.create {}) c4World c4Rng
    (by
      intro a ha
      simp only [c4World, c4Asteroid, GameWorld.addEntity, GameWorld.create,
        activeAsteroids, Asteroid.create] at ha
      simp only [List.filterMap] at ha
      rcases ha with h
      simp_all)
